import Mathlib

/-!
Shallow embedding of the advanced-search query-builder configuration module
(`AdvancedSearch.constants`): the field schema registry, the config assembler
`getQbConfigs`, the autocomplete adapter, and the initial empty filter tree.
TypeScript objects whose key set is dynamic are modelled as association lists
with object-spread semantics; objects whose keys the source accesses as fixed
properties are modelled as structures.
-/

/-- Search index enum: the entity categories, as referenced by the source
(the enum declaration itself lives in a module outside these sources; the
constructors are the members the source mentions). -/
inductive SearchIndex where
  | TABLE
  | TOPIC
  | DASHBOARD
  | PIPELINE
  | MLMODEL
  | USER
  | TEAM
  | TAG
  | GLOSSARY
deriving DecidableEq, Repr

/-- Suggestion field enum members referenced by the source. -/
inductive SuggestionField where
  | COLUMN
  | DATABASE
  | SCHEMA
  | SERVICE
  | ROOT
deriving DecidableEq, Repr

/-- The first argument of the autocomplete factory is a single search index or
an array of search indices. -/
inductive SearchIndexArg where
  | single (i : SearchIndex)
  | multiple (is : List SearchIndex)
deriving DecidableEq, Repr

/-- Model of the i18next translation lookup: a key translates to itself. -/
def i18next_t (key : String) : String := key

/-- Association-list lookup, modelling TypeScript property access m[k]. -/
def lookupKey {α : Type} (m : List (String × α)) (k : String) : Option α :=
  (m.find? (fun p => p.1 == k)).map Prod.snd

/-- Object-spread update: spreading m and then writing key k with value v
replaces the value in place when the key is present and appends it otherwise. -/
def setKey {α : Type} (m : List (String × α)) (k : String) (v : α) : List (String × α) :=
  if m.any (fun p => p.1 == k) then
    m.map (fun p => if p.1 == k then (k, v) else p)
  else
    m ++ [(k, v)]

/-- Object-spread merge of two maps: every key of m2 is written over m1 in
order, so later spreads win. -/
def spreadMerge {α : Type} (m1 m2 : List (String × α)) : List (String × α) :=
  m2.foldl (fun acc p => setKey acc p.1 p.2) m1

/-- Widget props shared by most fields in the registry. -/
structure MainWidgetProps where
  fullWidth : Bool
  valueLabel : String
deriving DecidableEq, Repr

def mainWidgetProps : MainWidgetProps :=
  { fullWidth := true, valueLabel := i18next_t "label.criteria" ++ ":" }

/-- A value and title pair, the shape of static list values and of the
suggestion results produced by the autocomplete adapter. -/
structure ListValue where
  value : String
  title : String
deriving DecidableEq, Repr

/-- The arguments with which the source wires an asyncFetch function: the
stored closure is autocomplete applied to exactly these arguments. -/
structure AsyncFetchRef where
  searchIndex : SearchIndexArg
  suggestField : Option SuggestionField
deriving DecidableEq, Repr

/-- Field settings of a registry field: either an async fetch closure
(represented by the arguments of the autocomplete factory) or a static list
of values. -/
inductive FieldSettings where
  | asyncFetch (ref : AsyncFetchRef)
  | listValues (vals : List ListValue)
deriving DecidableEq, Repr

/-- Value types a registry field may declare. -/
inductive QbFieldType where
  | boolean
  | text
  | select
  | struct
deriving DecidableEq, Repr

/-- A field descriptor of the registry: label, value type, optional default,
optional widget props, optional field settings, and, for struct fields, a
subfields mapping. Absence of the subfields key is modelled by none. -/
inductive QbField where
  | mk (label : String) (type : QbFieldType) (defaultValue : Option Bool)
      (mainWidgetProps : Option MainWidgetProps)
      (fieldSettings : Option FieldSettings)
      (subfields : Option (List (String × QbField)))

def QbField.type : QbField → QbFieldType
  | .mk _ t _ _ _ _ => t

def QbField.subfields : QbField → Option (List (String × QbField))
  | .mk _ _ _ _ _ s => s

/-- Common fields that exist for all searchable entities. -/
def commonQueryBuilderFields : List (String × QbField) :=
  [ ("deleted", .mk "Deleted" .boolean (some true) none none none),
    ("owner", .mk "Owner" .struct none none none (some
      [ ("name", .mk "username" .select none (some mainWidgetProps)
          (some (.asyncFetch ⟨.multiple [SearchIndex.USER, SearchIndex.TEAM], none⟩)) none),
        ("displayName", .mk "name" .text none (some mainWidgetProps) none none),
        ("type", .mk "type" .select none (some mainWidgetProps)
          (some (.listValues [⟨"user", "User"⟩, ⟨"team", "Team"⟩])) none) ])),
    ("tags.tagFQN", .mk "Tags" .select none (some mainWidgetProps)
      (some (.asyncFetch ⟨.multiple [SearchIndex.TAG, SearchIndex.GLOSSARY], none⟩)) none),
    ("tier.tagFQN", .mk "Tier" .select none (some mainWidgetProps)
      (some (.asyncFetch ⟨.multiple [SearchIndex.TAG, SearchIndex.GLOSSARY], none⟩)) none) ]

/-- Fields specific to services. -/
def serviceQueryBuilderFields : List (String × QbField) :=
  [ ("service", .mk "Service" .struct none none none (some
      [ ("name", .mk "name" .select none (some mainWidgetProps)
          (some (.asyncFetch ⟨.single SearchIndex.TABLE, some SuggestionField.SERVICE⟩)) none),
        ("deleted", .mk "deleted" .boolean (some true) none none none) ])) ]

/-- Fields specific to tables. -/
def tableQueryBuilderFields : List (String × QbField) :=
  [ ("database", .mk "Database" .struct none none none (some
      [ ("name", .mk "name" .select none (some mainWidgetProps)
          (some (.asyncFetch ⟨.single SearchIndex.TABLE, some SuggestionField.DATABASE⟩)) none),
        ("deleted", .mk "deleted" .boolean (some true) none none none) ])),
    ("databaseSchema", .mk "Database Schema" .struct none none none (some
      [ ("name", .mk "name" .select none (some mainWidgetProps)
          (some (.asyncFetch ⟨.single SearchIndex.TABLE, some SuggestionField.SCHEMA⟩)) none),
        ("deleted", .mk "deleted" .boolean (some true) none none none) ])),
    ("name", .mk "Table" .select none (some mainWidgetProps)
      (some (.asyncFetch ⟨.single SearchIndex.TABLE, some SuggestionField.ROOT⟩)) none),
    ("columns", .mk "Column" .struct none none none (some
      [ ("name", .mk "name" .select none (some mainWidgetProps)
          (some (.asyncFetch ⟨.single SearchIndex.TABLE, some SuggestionField.COLUMN⟩)) none),
        ("dataType", .mk "data type" .text none (some mainWidgetProps) none none),
        ("constraint", .mk "constraint" .text none (some mainWidgetProps) none none) ])) ]

/-- Entry of the per-type widgets map: the source only ever writes the
operators list of such an entry. -/
structure TypeWidgetEntry where
  operators : Option (List String)
deriving DecidableEq, Repr

/-- Per-type configuration: the widgets map, the excluded operators and the
allowed value sources (the attributes the source reads or writes). -/
structure TypeConfig where
  widgets : List (String × TypeWidgetEntry)
  excludeOperators : Option (List String)
  valueSources : Option (List String)
deriving DecidableEq, Repr

/-- The types map of a config; the source addresses the multiselect, select
and text entries as properties, the remaining entries of the base library
config are kept in rest and are never touched. -/
structure TypesConfig where
  multiselect : TypeConfig
  select : TypeConfig
  text : TypeConfig
  rest : List (String × TypeConfig)
deriving DecidableEq, Repr

/-- Per-widget configuration: the flags the source writes. -/
structure WidgetConfig where
  showSearch : Option Bool
  showCheckboxes : Option Bool
  useAsyncSearch : Option Bool
  useLoadMore : Option Bool
deriving DecidableEq, Repr

/-- The widgets map of a config, addressed like the types map. -/
structure WidgetsConfig where
  multiselect : WidgetConfig
  select : WidgetConfig
  text : WidgetConfig
  rest : List (String × WidgetConfig)
deriving DecidableEq, Repr

/-- Per-operator configuration: the source only writes the elastic search
query type of the like operator. -/
structure OperatorConfig where
  elasticSearchQueryType : Option String
deriving DecidableEq, Repr

/-- The operators map of a config. -/
structure OperatorsConfig where
  like : OperatorConfig
  rest : List (String × OperatorConfig)
deriving DecidableEq, Repr

/-- Token standing for the imported renderAdvanceSearchButtons render
function assigned to the renderButton setting. -/
def renderAdvanceSearchButtons : String := "renderAdvanceSearchButtons"

/-- The settings of a config: the attributes the source overrides, plus the
untouched remainder of the base library settings. -/
structure QbSettings where
  showLabels : Bool
  canReorder : Bool
  renderSize : String
  fieldLabel : String
  operatorLabel : String
  showNot : Bool
  valueLabel : String
  renderButton : String
  rest : List (String × String)
deriving DecidableEq, Repr

/-- The composite query-builder configuration shape consumed by the widget. -/
structure BasicConfig where
  types : TypesConfig
  widgets : WidgetsConfig
  operators : OperatorsConfig
  settings : QbSettings
  fields : List (String × QbField)

/-- Overriding default configurations: basic attributes that fields inherit
from. The base library config (AntdConfig) is external, so it is taken as a
parameter; the source spreads it and overrides the attributes below. -/
def initialConfigWithoutFields (BaseConfig : BasicConfig) : BasicConfig :=
  { BaseConfig with
    types := { BaseConfig.types with
      multiselect := { BaseConfig.types.multiselect with
        widgets := setKey BaseConfig.types.multiselect.widgets "text"
          ⟨some ["like", "not_like"]⟩,
        excludeOperators := some ["is_null", "is_not_null"],
        valueSources := some ["value"] },
      select := { BaseConfig.types.select with
        widgets := setKey BaseConfig.types.select.widgets "text"
          ⟨some ["like", "not_like"]⟩,
        excludeOperators := some ["is_null", "is_not_null"],
        valueSources := some ["value"] },
      text := { BaseConfig.types.text with
        valueSources := some ["value"] } },
    widgets := { BaseConfig.widgets with
      multiselect := { BaseConfig.widgets.multiselect with
        showSearch := some true,
        showCheckboxes := some true,
        useAsyncSearch := some true,
        useLoadMore := some false },
      select := { BaseConfig.widgets.select with
        showSearch := some true,
        showCheckboxes := some true,
        useAsyncSearch := some true,
        useLoadMore := some false },
      text := BaseConfig.widgets.text },
    operators := { BaseConfig.operators with
      like := { BaseConfig.operators.like with
        elasticSearchQueryType := some "wildcard" } },
    settings := { BaseConfig.settings with
      showLabels := true,
      canReorder := false,
      renderSize := "medium",
      fieldLabel := i18next_t "label.field-plural" ++ ":",
      operatorLabel := i18next_t "label.condition" ++ ":",
      showNot := false,
      valueLabel := i18next_t "label.criteria" ++ ":",
      renderButton := renderAdvanceSearchButtons } }

/-- Builds search index specific configuration for the query builder. The
switch of the source becomes a match; the default branch returns the common
fields only. -/
def getQbConfigs (BaseConfig : BasicConfig) (searchIndex : SearchIndex) : BasicConfig :=
  match searchIndex with
  | .MLMODEL =>
    { initialConfigWithoutFields BaseConfig with
      fields := spreadMerge commonQueryBuilderFields serviceQueryBuilderFields }
  | .PIPELINE =>
    { initialConfigWithoutFields BaseConfig with
      fields := spreadMerge commonQueryBuilderFields serviceQueryBuilderFields }
  | .DASHBOARD =>
    { initialConfigWithoutFields BaseConfig with
      fields := spreadMerge commonQueryBuilderFields serviceQueryBuilderFields }
  | .TABLE =>
    { initialConfigWithoutFields BaseConfig with
      fields := spreadMerge (spreadMerge commonQueryBuilderFields serviceQueryBuilderFields)
        tableQueryBuilderFields }
  | .TOPIC =>
    { initialConfigWithoutFields BaseConfig with
      fields := spreadMerge commonQueryBuilderFields serviceQueryBuilderFields }
  | _ =>
    { initialConfigWithoutFields BaseConfig with
      fields := commonQueryBuilderFields }

/-- The five switch cases of getQbConfigs. -/
def supportedCategories : List SearchIndex :=
  [.MLMODEL, .PIPELINE, .DASHBOARD, .TABLE, .TOPIC]

/-- A concrete base config used to instantiate theorems that quantify over
the external base library config. -/
def sampleBaseConfig : BasicConfig :=
  { types :=
      { multiselect := ⟨[], none, none⟩,
        select := ⟨[], none, none⟩,
        text := ⟨[], none, none⟩,
        rest := [] },
    widgets :=
      { multiselect := ⟨none, none, none, none⟩,
        select := ⟨none, none, none, none⟩,
        text := ⟨none, none, none, none⟩,
        rest := [] },
    operators := { like := ⟨none⟩, rest := [] },
    settings :=
      { showLabels := false,
        canReorder := true,
        renderSize := "small",
        fieldLabel := "",
        operatorLabel := "",
        showNot := true,
        valueLabel := "",
        renderButton := "",
        rest := [] },
    fields := [] }

/-- Modelled from the spec: suggestQuery (declared in the search API module,
which is not among these sources) resolves to an array of suggestion options,
each exposing a text property; a real option also carries further payload
(for instance the backing document reference), modelled here by the meta
field, which distinguishes separately parsed response objects. -/
structure SuggestOption where
  text : String
  meta : String
deriving DecidableEq, Repr

/-- The request object the adapter passes to suggestQuery. -/
structure SuggestRequest where
  query : String
  searchIndex : SearchIndexArg
  field : Option SuggestionField
  fetchSource : Bool
deriving DecidableEq, Repr

/-- The object the adapter resolves with: the suggestion values and the
pagination flag. -/
structure AsyncFetchResult where
  values : List ListValue
  hasMore : Bool
deriving DecidableEq, Repr

/-- Lodash uniq: keeps the first occurrence of each element, in order. On
objects lodash compares by SameValueZero, which never identifies two
separately constructed objects; structural equality is used here, which can
only identify at least as much, so any duplicate that survives this model
also survives the original. -/
def uniq {α : Type} [BEq α] (l : List α) : List α :=
  l.foldl (fun acc x => if acc.contains x then acc else acc ++ [x]) []

/-- The autocomplete adapter. The network effect of suggestQuery is modelled
by splitting the arrow function at the await point: the result is the request
dispatched to the suggestion service together with the continuation applied
to the service response. The query is the searched text, with null and
undefined (none) replaced by the wildcard. -/
def autocomplete (searchIndex : SearchIndexArg) (suggestField : Option SuggestionField)
    (search : Option String) :
    SuggestRequest × (List SuggestOption → AsyncFetchResult) :=
  ({ query := search.getD "*",
     searchIndex := searchIndex,
     field := suggestField,
     fetchSource := false },
   fun resp =>
    { values := (uniq resp).map (fun o => { value := o.text, title := o.text }),
      hasMore := false })

/-- A node of the query-builder JSON tree: a group with a conjunction, a not
flag and children keyed by generated identifiers, or a rule. -/
inductive JsonTreeNode where
  | group (conjunction : String) (not : Bool) (children1 : List (String × JsonTreeNode))
  | rule (field : Option String) (operator : Option String)
      (value : List String) (valueSrc : List String)

/-- Generates a query builder tree with a group containing an empty rule.
Each call of the uuid generator is modelled by one parameter; the external
generator returns a fresh identifier per call. -/
def emptyJsonTree (uuid1 uuid2 uuid3 : String) : String × JsonTreeNode :=
  (uuid1,
   .group "AND" false
     [ (uuid2, .group "AND" false
         [ (uuid3, .rule none none [] []) ]) ])

/-- Path membership in a fields mapping: a single segment is looked up as a
literal key, a longer path descends through the subfields mapping of a
struct field. -/
def containsPath : List (String × QbField) → List String → Bool
  | _, [] => false
  | fs, [k] => (lookupKey fs k).isSome
  | fs, k :: rest =>
    match lookupKey fs k with
    | some f =>
      match f.subfields with
      | some subs => containsPath subs rest
      | none => false
    | none => false

mutual

/-- Well-formedness of a field descriptor: a struct field carries a
non-empty subfields mapping, a leaf field carries none, and all subfield
descriptors are themselves well formed. -/
def QbField.wellFormed : QbField → Bool
  | .mk _ t _ _ _ subs =>
    (match t, subs with
      | QbFieldType.struct, some l => !l.isEmpty
      | QbFieldType.struct, none => false
      | _, some _ => false
      | _, none => true)
    && subfieldsWF subs

def subfieldsWF : Option (List (String × QbField)) → Bool
  | none => true
  | some l => fieldsWF l

def fieldsWF : List (String × QbField) → Bool
  | [] => true
  | (_, f) :: rest => QbField.wellFormed f && fieldsWF rest

end

mutual

/-- Number of group nodes in a tree node, the node itself included. -/
def JsonTreeNode.groupCount : JsonTreeNode → Nat
  | .group _ _ cs => 1 + childrenGroupCount cs
  | .rule _ _ _ _ => 0

def childrenGroupCount : List (String × JsonTreeNode) → Nat
  | [] => 0
  | (_, n) :: rest => JsonTreeNode.groupCount n + childrenGroupCount rest

end

mutual

/-- Number of rule nodes in a tree node. -/
def JsonTreeNode.ruleCount : JsonTreeNode → Nat
  | .group _ _ cs => childrenRuleCount cs
  | .rule _ _ _ _ => 1

def childrenRuleCount : List (String × JsonTreeNode) → Nat
  | [] => 0
  | (_, n) :: rest => JsonTreeNode.ruleCount n + childrenRuleCount rest

end

mutual

/-- Identifiers carried below a node: the keys of its children map, in
document order. -/
def JsonTreeNode.innerIds : JsonTreeNode → List String
  | .group _ _ cs => childrenIds cs
  | .rule _ _ _ _ => []

def childrenIds : List (String × JsonTreeNode) → List String
  | [] => []
  | (k, n) :: rest => k :: (JsonTreeNode.innerIds n ++ childrenIds rest)

end

/-- All identifiers of a tree: the id of the root object followed by the
keys of every nested child. -/
def treeIds (t : String × JsonTreeNode) : List String :=
  t.1 :: t.2.innerIds

/-- Number of direct children of a node. -/
def JsonTreeNode.childCount : JsonTreeNode → Nat
  | .group _ _ cs => cs.length
  | .rule _ _ _ _ => 0

/-- First direct child of a node, with its key. -/
def JsonTreeNode.firstChild : JsonTreeNode → Option (String × JsonTreeNode)
  | .group _ _ (c :: _) => some c
  | _ => none

/-- An empty rule: field and operator are null and value and valueSrc are
empty lists. -/
def JsonTreeNode.isEmptyRule : JsonTreeNode → Bool
  | .rule none none [] [] => true
  | _ => false

/-- A service response holding two distinct suggestion objects with the text
alpha and one with the text beta. -/
def duplicateTextResponse : List SuggestOption :=
  [⟨"alpha", "1"⟩, ⟨"alpha", "2"⟩, ⟨"beta", "3"⟩]

/-- Auxiliary bound for the lodash uniq model: a fold step adds at most one
element, so the de-duplicated list is never longer than its input. -/
theorem uniq_length_le {α : Type} [BEq α] (l : List α) : (uniq l).length ≤ l.length := by
  have key : ∀ (l acc : List α),
      (l.foldl (fun acc x => if acc.contains x then acc else acc ++ [x]) acc).length
        ≤ acc.length + l.length := by
    intro l
    induction l with
    | nil => intro acc; simp
    | cons x xs ih =>
      intro acc
      simp only [List.foldl_cons, List.length_cons]
      by_cases h : acc.contains x
      · rw [if_pos h]
        exact (ih acc).trans (by omega)
      · rw [if_neg h]
        have hx := ih (acc ++ [x])
        simp only [List.length_append, List.length_singleton] at hx
        omega
  simpa [uniq] using key l []

/-- C1: for every search index value that is not one of the recognized
entity categories (MLMODEL, PIPELINE, DASHBOARD, TABLE, TOPIC), the config
builder getQbConfigs returns normally (it is a total function of the match
with a default branch) and its result equals the base configuration
initialConfigWithoutFields with fields set to exactly the common field
mapping. -/
theorem getQbConfigs_default_common (base : BasicConfig) (si : SearchIndex)
    (h : si ∉ supportedCategories) :
    getQbConfigs base si
      = { initialConfigWithoutFields base with fields := commonQueryBuilderFields } := by
  cases si <;> first
    | rfl
    | exact absurd (by decide) h

theorem getQbConfigs_default_common_witness :
    getQbConfigs sampleBaseConfig SearchIndex.USER
      = { initialConfigWithoutFields sampleBaseConfig with
          fields := commonQueryBuilderFields } :=
  getQbConfigs_default_common sampleBaseConfig SearchIndex.USER (by decide)

/-- C2: for every supported entity category, the fields mapping of the
configuration returned by getQbConfigs is a superset of the common field
mapping: every key of commonQueryBuilderFields is present and bound to its
common descriptor. -/
theorem getQbConfigs_superset_common (base : BasicConfig) (si : SearchIndex)
    (hsi : si ∈ supportedCategories) :
    ∀ p ∈ commonQueryBuilderFields,
      lookupKey (getQbConfigs base si).fields p.1 = some p.2 := by
  intro p hp
  simp only [supportedCategories, List.mem_cons, List.not_mem_nil, or_false] at hsi
  simp only [commonQueryBuilderFields, List.mem_cons, List.not_mem_nil, or_false] at hp
  rcases hsi with rfl | rfl | rfl | rfl | rfl <;>
    rcases hp with rfl | rfl | rfl | rfl <;> rfl

theorem getQbConfigs_superset_common_witness :
    lookupKey (getQbConfigs sampleBaseConfig SearchIndex.TABLE).fields "deleted"
      = some (QbField.mk "Deleted" .boolean (some true) none none none) :=
  getQbConfigs_superset_common sampleBaseConfig SearchIndex.TABLE (by decide)
    ("deleted", QbField.mk "Deleted" .boolean (some true) none none none)
    (List.Mem.head _)

/-- C5: for every supported entity category, in the configuration returned
by getQbConfigs the type settings of multiselect and select exclude the
operators is_null and is_not_null and restrict value sources to exactly the
literal value source. -/
theorem getQbConfigs_select_types_restricted (base : BasicConfig) (si : SearchIndex)
    (hsi : si ∈ supportedCategories) :
    (getQbConfigs base si).types.multiselect.excludeOperators
        = some ["is_null", "is_not_null"] ∧
    (getQbConfigs base si).types.multiselect.valueSources = some ["value"] ∧
    (getQbConfigs base si).types.select.excludeOperators
        = some ["is_null", "is_not_null"] ∧
    (getQbConfigs base si).types.select.valueSources = some ["value"] := by
  simp only [supportedCategories, List.mem_cons, List.not_mem_nil, or_false] at hsi
  rcases hsi with rfl | rfl | rfl | rfl | rfl <;> exact ⟨rfl, rfl, rfl, rfl⟩

theorem getQbConfigs_select_types_restricted_witness :
    (getQbConfigs sampleBaseConfig SearchIndex.TABLE).types.multiselect.excludeOperators
        = some ["is_null", "is_not_null"] ∧
    (getQbConfigs sampleBaseConfig SearchIndex.TABLE).types.multiselect.valueSources
        = some ["value"] ∧
    (getQbConfigs sampleBaseConfig SearchIndex.TABLE).types.select.excludeOperators
        = some ["is_null", "is_not_null"] ∧
    (getQbConfigs sampleBaseConfig SearchIndex.TABLE).types.select.valueSources
        = some ["value"] :=
  getQbConfigs_select_types_restricted sampleBaseConfig SearchIndex.TABLE (by decide)

/-- C6: the fields mapping of the table configuration contains descriptors
for the table paths database.name, databaseSchema.name, name, columns.name,
columns.dataType and columns.constraint, all common paths, and the
service-backed paths, where a dotted path such as owner.name descends
through the subfields mapping of the struct field. -/
theorem getQbConfigs_table_paths (base : BasicConfig) :
    containsPath (getQbConfigs base SearchIndex.TABLE).fields ["database", "name"] = true ∧
    containsPath (getQbConfigs base SearchIndex.TABLE).fields ["databaseSchema", "name"] = true ∧
    containsPath (getQbConfigs base SearchIndex.TABLE).fields ["name"] = true ∧
    containsPath (getQbConfigs base SearchIndex.TABLE).fields ["columns", "name"] = true ∧
    containsPath (getQbConfigs base SearchIndex.TABLE).fields ["columns", "dataType"] = true ∧
    containsPath (getQbConfigs base SearchIndex.TABLE).fields ["columns", "constraint"] = true ∧
    containsPath (getQbConfigs base SearchIndex.TABLE).fields ["deleted"] = true ∧
    containsPath (getQbConfigs base SearchIndex.TABLE).fields ["owner", "name"] = true ∧
    containsPath (getQbConfigs base SearchIndex.TABLE).fields ["owner", "displayName"] = true ∧
    containsPath (getQbConfigs base SearchIndex.TABLE).fields ["owner", "type"] = true ∧
    containsPath (getQbConfigs base SearchIndex.TABLE).fields ["tags.tagFQN"] = true ∧
    containsPath (getQbConfigs base SearchIndex.TABLE).fields ["tier.tagFQN"] = true ∧
    containsPath (getQbConfigs base SearchIndex.TABLE).fields ["service", "name"] = true ∧
    containsPath (getQbConfigs base SearchIndex.TABLE).fields ["service", "deleted"] = true :=
  ⟨rfl, rfl, rfl, rfl, rfl, rfl, rfl, rfl, rfl, rfl, rfl, rfl, rfl, rfl⟩

/-- C7: the fields mapping of the dashboard configuration contains all
common paths and the service-backed paths, but none of the table-specific
paths, neither the top-level keys database, databaseSchema, name and
columns nor any of their subfield paths. -/
theorem getQbConfigs_dashboard_paths (base : BasicConfig) :
    containsPath (getQbConfigs base SearchIndex.DASHBOARD).fields ["deleted"] = true ∧
    containsPath (getQbConfigs base SearchIndex.DASHBOARD).fields ["owner", "name"] = true ∧
    containsPath (getQbConfigs base SearchIndex.DASHBOARD).fields ["owner", "displayName"] = true ∧
    containsPath (getQbConfigs base SearchIndex.DASHBOARD).fields ["owner", "type"] = true ∧
    containsPath (getQbConfigs base SearchIndex.DASHBOARD).fields ["tags.tagFQN"] = true ∧
    containsPath (getQbConfigs base SearchIndex.DASHBOARD).fields ["tier.tagFQN"] = true ∧
    containsPath (getQbConfigs base SearchIndex.DASHBOARD).fields ["service", "name"] = true ∧
    containsPath (getQbConfigs base SearchIndex.DASHBOARD).fields ["service", "deleted"] = true ∧
    containsPath (getQbConfigs base SearchIndex.DASHBOARD).fields ["database"] = false ∧
    containsPath (getQbConfigs base SearchIndex.DASHBOARD).fields ["databaseSchema"] = false ∧
    containsPath (getQbConfigs base SearchIndex.DASHBOARD).fields ["name"] = false ∧
    containsPath (getQbConfigs base SearchIndex.DASHBOARD).fields ["columns"] = false ∧
    containsPath (getQbConfigs base SearchIndex.DASHBOARD).fields ["database", "name"] = false ∧
    containsPath (getQbConfigs base SearchIndex.DASHBOARD).fields ["database", "deleted"] = false ∧
    containsPath (getQbConfigs base SearchIndex.DASHBOARD).fields ["databaseSchema", "name"]
        = false ∧
    containsPath (getQbConfigs base SearchIndex.DASHBOARD).fields ["databaseSchema", "deleted"]
        = false ∧
    containsPath (getQbConfigs base SearchIndex.DASHBOARD).fields ["columns", "name"] = false ∧
    containsPath (getQbConfigs base SearchIndex.DASHBOARD).fields ["columns", "dataType"]
        = false ∧
    containsPath (getQbConfigs base SearchIndex.DASHBOARD).fields ["columns", "constraint"]
        = false :=
  ⟨rfl, rfl, rfl, rfl, rfl, rfl, rfl, rfl, rfl, rfl,
   rfl, rfl, rfl, rfl, rfl, rfl, rfl, rfl, rfl⟩

/-- C8: in the common, service-backed and table-specific registries, and
hence in the fields mapping of every configuration returned by getQbConfigs,
a struct descriptor carries a non-empty subfields mapping and a descriptor
of a leaf type carries no subfields mapping, recursively at every depth. -/
theorem registry_struct_subfields_invariant :
    fieldsWF commonQueryBuilderFields = true ∧
    fieldsWF serviceQueryBuilderFields = true ∧
    fieldsWF tableQueryBuilderFields = true ∧
    ∀ (base : BasicConfig) (si : SearchIndex),
      fieldsWF (getQbConfigs base si).fields = true :=
  ⟨rfl, rfl, rfl, fun _ si => by cases si <;> rfl⟩

/-- C10: the configurations for the four non-table service-backed categories
are pairwise equal, and their shared fields mapping is the object-spread
union of the common fields with the service fields. -/
theorem getQbConfigs_service_categories_equal (base : BasicConfig) :
    getQbConfigs base SearchIndex.MLMODEL = getQbConfigs base SearchIndex.PIPELINE ∧
    getQbConfigs base SearchIndex.MLMODEL = getQbConfigs base SearchIndex.DASHBOARD ∧
    getQbConfigs base SearchIndex.MLMODEL = getQbConfigs base SearchIndex.TOPIC ∧
    getQbConfigs base SearchIndex.PIPELINE = getQbConfigs base SearchIndex.DASHBOARD ∧
    getQbConfigs base SearchIndex.PIPELINE = getQbConfigs base SearchIndex.TOPIC ∧
    getQbConfigs base SearchIndex.DASHBOARD = getQbConfigs base SearchIndex.TOPIC ∧
    (getQbConfigs base SearchIndex.MLMODEL).fields
      = spreadMerge commonQueryBuilderFields serviceQueryBuilderFields :=
  ⟨rfl, rfl, rfl, rfl, rfl, rfl, rfl⟩

/-- C3 counterexample: on a response whose texts are alpha, alpha and beta
the adapter returns three pairs, not one pair per distinct text: the lodash
uniq call compares whole response items, and distinct items with equal text
all survive it. -/
theorem autocomplete_dedup_by_text_counterexample :
    ((autocomplete (.multiple [SearchIndex.USER, SearchIndex.TEAM]) none none).2
        duplicateTextResponse).values
      = [⟨"alpha", "alpha"⟩, ⟨"alpha", "alpha"⟩, ⟨"beta", "beta"⟩] ∧
    (uniq (duplicateTextResponse.map SuggestOption.text)).length = 2 ∧
    ((autocomplete (.multiple [SearchIndex.USER, SearchIndex.TEAM]) none none).2
        duplicateTextResponse).values.length ≠ 2 := by
  decide

/-- C3 amended: the adapter returns one value and title pair per response
item surviving the lodash uniq pass, which compares entire items rather
than their text, so items that differ in any payload are all kept even when
their texts coincide; in every returned pair the title equals the value,
which equals the item text; the adapter never returns more pairs than the
service provided items, and hasMore is always false. -/
theorem autocomplete_uniq_amended (searchIndex : SearchIndexArg)
    (suggestField : Option SuggestionField) (search : Option String)
    (resp : List SuggestOption) :
    ((autocomplete searchIndex suggestField search).2 resp).values
      = (uniq resp).map (fun o => { value := o.text, title := o.text }) ∧
    (((autocomplete searchIndex suggestField search).2 resp).values.all
        (fun p => p.value == p.title)) = true ∧
    ((autocomplete searchIndex suggestField search).2 resp).values.length ≤ resp.length ∧
    ((autocomplete searchIndex suggestField search).2 resp).hasMore = false := by
  refine ⟨rfl, ?_, ?_, rfl⟩
  · simp [autocomplete, List.all_eq_true]
  · simp only [autocomplete, List.length_map]
    exact uniq_length_le resp

/-- C4 counterexample: the empty search text is not nullish, so the nullish
coalescing in the adapter does not replace it; the dispatched query is the
empty string, not the wildcard. -/
theorem autocomplete_empty_query_counterexample :
    (autocomplete (.single SearchIndex.TABLE) none (some "")).1.query = "" ∧
    (autocomplete (.single SearchIndex.TABLE) none (some "")).1.query ≠ "*" :=
  ⟨rfl, by decide⟩

/-- C4 amended: only a null or undefined search text is normalized to the
wildcard before dispatch; any present string, the empty string included, is
dispatched unchanged. -/
theorem autocomplete_wildcard_amended (searchIndex : SearchIndexArg)
    (suggestField : Option SuggestionField) :
    (autocomplete searchIndex suggestField none).1.query = "*" ∧
    (autocomplete searchIndex suggestField (some "")).1.query = "" ∧
    ∀ s : String, (autocomplete searchIndex suggestField (some s)).1.query = s :=
  ⟨rfl, rfl, fun _ => rfl⟩

/-- C9 counterexample: at the concrete generated identifiers a, b and c the
initial tree is not one group node directly containing exactly one empty
rule: the single child of the root group is itself a group node. -/
theorem emptyJsonTree_single_group_counterexample :
    ¬ ∃ (conj : String) (ng : Bool) (rid : String),
        (emptyJsonTree "a" "b" "c").2
          = JsonTreeNode.group conj ng [(rid, JsonTreeNode.rule none none [] [])] := by
  rintro ⟨conj, ng, rid, h⟩
  simp [emptyJsonTree] at h

/-- C9 amended: the initial empty filter tree is one group node whose single
child is a group node, which in turn contains exactly one empty rule (field
and operator null, value and valueSrc empty lists); the tree carries exactly
the three generated identifiers, all distinct whenever the uuid generator
returned distinct values. -/
theorem emptyJsonTree_shape_amended (u1 u2 u3 : String)
    (h12 : u1 ≠ u2) (h13 : u1 ≠ u3) (h23 : u2 ≠ u3) :
    (emptyJsonTree u1 u2 u3).2.groupCount = 2 ∧
    (emptyJsonTree u1 u2 u3).2.ruleCount = 1 ∧
    (emptyJsonTree u1 u2 u3).2.childCount = 1 ∧
    ((emptyJsonTree u1 u2 u3).2.firstChild).map (fun c => c.2.childCount) = some 1 ∧
    (((emptyJsonTree u1 u2 u3).2.firstChild).bind (fun c => c.2.firstChild)).map
        (fun c => c.2.isEmptyRule) = some true ∧
    treeIds (emptyJsonTree u1 u2 u3) = [u1, u2, u3] ∧
    (treeIds (emptyJsonTree u1 u2 u3)).Nodup := by
  refine ⟨rfl, rfl, rfl, rfl, rfl, rfl, ?_⟩
  simp [treeIds, emptyJsonTree, JsonTreeNode.innerIds, childrenIds, h12, h13, h23]

theorem emptyJsonTree_shape_amended_witness :
    (emptyJsonTree "a" "b" "c").2.groupCount = 2 ∧
    (emptyJsonTree "a" "b" "c").2.ruleCount = 1 ∧
    (emptyJsonTree "a" "b" "c").2.childCount = 1 ∧
    ((emptyJsonTree "a" "b" "c").2.firstChild).map (fun c => c.2.childCount) = some 1 ∧
    (((emptyJsonTree "a" "b" "c").2.firstChild).bind (fun c => c.2.firstChild)).map
        (fun c => c.2.isEmptyRule) = some true ∧
    treeIds (emptyJsonTree "a" "b" "c") = ["a", "b", "c"] ∧
    (treeIds (emptyJsonTree "a" "b" "c")).Nodup :=
  emptyJsonTree_shape_amended "a" "b" "c" (by decide) (by decide) (by decide)
